import Mathlib

set_option linter.unusedVariables false

/-!
Verification development for the `otakara_kuji` backend handlers
(`src/app/omikuji`, `src/app/delete_category`, `src/app/list_category`).

Each Python lambda module is embedded as a Lean namespace.  Python
exceptions are modelled by the sum type `PyErr`; a `raise` becomes an
`Except.error`.  Calls into the DynamoDB client are modelled by injected
`DbOutcome` values describing what the underlying store call did
(success with a value, or a `botocore` client error carrying a failure
code and message); the helpers' classification logic is embedded
verbatim from the source.  The pseudo-random generator is modelled by an
oracle value: `random.randint(lo, hi)` returns the oracle when the range
is nonempty (its documented contract puts the result in `[lo, hi]`) and
raises `ValueError` when `hi < lo`.
-/

/-- Python exception kinds reachable in the embedded handlers.
`clientError` carries the `.message` attribute set in `ClientError.__init__`;
`serverError` carries the formatted detail (never echoed to callers).
The remaining constructors model built-in exceptions that are neither
`ClientError` nor `ServerError`: `KeyError`, `NameError`
(`UnboundLocalError`), `TypeError`, `ValueError`. -/
inductive PyErr where
  | clientError (message : String)
  | serverError (detail : String)
  | keyError
  | nameError
  | typeError
  | valueError
  deriving Repr, DecidableEq

/-- Outcome of one underlying DynamoDB call: either it succeeded with a
value, or `botocore.exceptions.ClientError` was raised with
`error.response["Error"]["Code"] = code` and `...["Message"] = message`. -/
inductive DbOutcome (α : Type) where
  | success (value : α)
  | failure (code : String) (message : String)
  deriving Repr, DecidableEq

/-- JSON values, the output of `json.dumps` viewed structurally. -/
inductive JsonVal where
  | str (s : String)
  | num (n : Int)
  | bool (b : Bool)
  | null
  | arr (xs : List JsonVal)
  | obj (fields : List (String × JsonVal))
  deriving Repr

/-- Python values appearing in response payloads.  `decimal d` models a
`decimal.Decimal` as returned by the DynamoDB resource layer; the store
only holds integral numbers (item ids and counts), so the carried value
is the integer the decimal denotes and Python's `int()` is the identity
on it.  `unserializable` models any object none of the JSON-native types
nor `Decimal` covers. -/
inductive PyVal where
  | str (s : String)
  | int (n : Int)
  | decimal (d : Int)
  | bool (b : Bool)
  | null
  | list (xs : List PyVal)
  | dict (fields : List (String × PyVal))
  | unserializable
  deriving Repr

/-- Source `decimal_default_proc` (omikuji lambda_function.py, lines 87-90):
coerces a `Decimal` with `int()`, raises `TypeError` on anything else. -/
def decimal_default_proc : PyVal → Except Unit PyVal
  | .decimal d => .ok (.int d)
  | _ => .error ()

mutual

/-- Embeds `json.dumps` on one value: JSON-native types serialize directly;
when `useDefault` is true a non-native value is passed to
`decimal_default_proc` and the returned value (always an `int`) is
serialized; otherwise a non-native value raises `TypeError`
(modelled as `Except.error ()`). -/
def dumps_val (useDefault : Bool) : PyVal → Except Unit JsonVal
  | .str s => .ok (.str s)
  | .int n => .ok (.num n)
  | .bool b => .ok (.bool b)
  | .null => .ok .null
  | .list xs => (dumps_list useDefault xs).map .arr
  | .dict fs => (dumps_fields useDefault fs).map .obj
  | .decimal d =>
      if useDefault then
        match decimal_default_proc (.decimal d) with
        | .ok (.int n) => .ok (.num n)
        | _ => .error ()
      else .error ()
  | .unserializable => .error ()

def dumps_list (useDefault : Bool) : List PyVal → Except Unit (List JsonVal)
  | [] => .ok []
  | x :: xs => do
      let j ← dumps_val useDefault x
      let js ← dumps_list useDefault xs
      return j :: js

def dumps_fields (useDefault : Bool) :
    List (String × PyVal) → Except Unit (List (String × JsonVal))
  | [] => .ok []
  | (k, v) :: fs => do
      let j ← dumps_val useDefault v
      let js ← dumps_fields useDefault fs
      return (k, j) :: js

end

mutual

/-- Whether a value contains a leaf that neither the JSON encoder nor
`decimal_default_proc` can serialize. -/
def hasUnserializable : PyVal → Bool
  | .list xs => hasUnserializableList xs
  | .dict fs => hasUnserializableFields fs
  | .unserializable => true
  | _ => false

def hasUnserializableList : List PyVal → Bool
  | [] => false
  | x :: xs => hasUnserializable x || hasUnserializableList xs

def hasUnserializableFields : List (String × PyVal) → Bool
  | [] => false
  | (_, v) :: fs => hasUnserializable v || hasUnserializableFields fs

end

mutual

/-- Mathematical description of the encoding `json.dumps` with
`decimal_default_proc` performs on a serializable value: native types
map to their JSON counterparts and every `Decimal` leaf is coerced to a
plain integer (the value `int()` returns on it). -/
def jencode : PyVal → JsonVal
  | .str s => .str s
  | .int n => .num n
  | .bool b => .bool b
  | .null => .null
  | .decimal d => .num d
  | .list xs => .arr (jencodeList xs)
  | .dict fs => .obj (jencodeFields fs)
  | .unserializable => .null

def jencodeList : List PyVal → List JsonVal
  | [] => []
  | x :: xs => jencode x :: jencodeList xs

def jencodeFields : List (String × PyVal) → List (String × JsonVal)
  | [] => []
  | (k, v) :: fs => (k, jencode v) :: jencodeFields fs

end

/-- The fixed header set attached to every response envelope. -/
def cors_headers : List (String × JsonVal) :=
  [ ("Content-Type", .str "application/json"),
    ("Access-Control-Allow-Origin", .str "*"),
    ("Access-Control-Allow-Methods", .str "GET, POST, DELETE"),
    ("Access-Control-Allow-Credentials", .bool true),
    ("Access-Control-Allow-Headers", .str "origin, x-requested-with") ]

/-- The response envelope a handler returns to the platform
(`Response.data` in each module). -/
structure ResponseData where
  statusCode : Int
  headers : List (String × JsonVal)
  body : JsonVal
  isBase64Encoded : Bool
  deriving Repr

namespace Omikuji

/-! Embedding of `src/app/omikuji/lambda_function.py`. -/

/-- Source `EnvParam` (lines 32-34): the two required environment variables. -/
structure EnvParam where
  CATEGORY_TABLE_NAME : String
  ITEM_TABLE_NAME : String
  deriving Repr, DecidableEq

/-- Source `EnvParam.from_env` (lines 36-44): reads both variables from the
process environment; any `KeyError` in the comprehension is caught and
re-raised as `ServerError`. -/
def EnvParam.from_env (environ : List (String × String)) : Except PyErr EnvParam :=
  match environ.lookup "CATEGORY_TABLE_NAME", environ.lookup "ITEM_TABLE_NAME" with
  | some c, some i => .ok ⟨c, i⟩
  | _, _ => .error (.serverError "Required environment variables are not set.")

/-- Shape of `event["pathParameters"]` as far as the parser can observe:
the key may be absent from the event, present with value `None`, or
present with a string-to-string map (the shape the gateway delivers). -/
inductive PathParams where
  | absentKey
  | nullValue
  | dict (params : List (String × String))
  deriving Repr, DecidableEq

/-- Source `ApiPathParamater` (lines 47-48). -/
structure ApiPathParamater where
  category : String
  deriving Repr, DecidableEq

/-- Source `ApiPathParamater.from_event` (lines 50-61).  When the event has no
`pathParameters` key at all, `event["pathParameters"]` raises `KeyError`
before the local `paramater` is bound; the `except` block then evaluates
`json.dumps(paramater)`, which raises `UnboundLocalError` (a
`NameError`), so that exception - not `ClientError` - propagates.  When
the key is present but the `category` field cannot be extracted
(`paramater` is `None`, or a map without `"category"`), `paramater` is
bound, `json.dumps` succeeds, and `ClientError("Invalid parameter.")` is
raised. -/
def ApiPathParamater.from_event : PathParams → Except PyErr ApiPathParamater
  | .absentKey => .error .nameError
  | .nullValue => .error (.clientError "Invalid parameter.")
  | .dict params =>
      match params.lookup "category" with
      | some c => .ok ⟨c⟩
      | none => .error (.clientError "Invalid parameter.")

/-- Source `get_item` (lines 64-84): returns the (possibly absent) item on
success; on a `botocore` client error, classifies by failure code:
`InternalServerError` raises `ServerError`, `ResourceNotFoundException`
returns `None`, anything else raises `ClientError`. -/
def get_item {α : Type} (table_name : String) (outcome : DbOutcome (Option α)) :
    Except PyErr (Option α) :=
  match outcome with
  | .success item => .ok item
  | .failure code msg =>
      if code = "InternalServerError" then .error (.serverError msg)
      else if code = "ResourceNotFoundException" then .ok none
      else .error (.clientError msg)

/-- Embeds `random.randint(lo, hi)` with the pseudo-random draw supplied as an
oracle: returns the oracle value when the inclusive range `[lo, hi]` is
nonempty (the library contract guarantees the result lies in that
range), and raises `ValueError` when `hi < lo` (empty range). -/
def randint (lo hi oracle : Int) : Except PyErr Int :=
  if hi < lo then .error .valueError else .ok oracle

/-- A category record as read by the draw service: the source accesses
only its `num_item` attribute (line 134). -/
structure CategoryRecord where
  num_item : Int
  deriving Repr, DecidableEq

/-- Source `Response` (lines 93-95): `message` is a string or a nested payload. -/
structure Response where
  status_code : Int
  message : PyVal
  deriving Repr

/-- Source `Response.data` (lines 97-114): the envelope with the fixed headers
and `json.dumps({"message": ...}, default=decimal_default_proc)` as body;
a value the encoder and the default hook both reject raises `TypeError`. -/
def Response.data (resp : Response) : Except PyErr ResponseData :=
  match dumps_val true (.dict [("message", resp.message)]) with
  | .ok j => .ok ⟨resp.status_code, cors_headers, j, false⟩
  | .error _ => .error .typeError

/-- Source `service` (lines 117-149): look up the category record; absent means
`ClientError`.  Otherwise draw `random.randint(0, num_item - 1)`, fetch
the item at `(category, item_id)`; absent means `ServerError`, otherwise
return the payload with status 200.  Store reads are injected as
`DbOutcome` values keyed the way the source keys its calls. -/
def service (body : ApiPathParamater) (env : EnvParam)
    (catdb : String → DbOutcome (Option CategoryRecord))
    (itemdb : String → Int → DbOutcome (Option PyVal))
    (oracle : Int) : Except PyErr Response := do
  let response_category ← get_item env.CATEGORY_TABLE_NAME (catdb body.category)
  match response_category with
  | none => .error (.clientError ("category is empty: " ++ body.category))
  | some cat => do
      let item_id ← randint 0 (cat.num_item - 1) oracle
      let response_items ← get_item env.ITEM_TABLE_NAME (itemdb body.category item_id)
      match response_items with
      | none => .error (.serverError "item dose not exist")
      | some payload => return ⟨200, payload⟩

/-- The `except` clauses of `lambda_handler` (lines 162-179): `ServerError`
maps to 500 with a generic retry message, `ClientError` to 400 echoing
the carried message, anything else to 500 with a generic
contact-the-operator message. -/
def handle_errors (e : PyErr) : Response :=
  match e with
  | .serverError _ =>
      ⟨500, .str "internal server error. Please access again after some time."⟩
  | .clientError msg => ⟨400, .str ("client error. " ++ msg)⟩
  | _ => ⟨500, .str "internal server error. Please contact the operator."⟩

/-- Source `lambda_handler` (lines 155-179): parse the path parameters, then the
environment (keyword arguments evaluate left to right), run the service,
serialize; any exception from the `try` block is mapped by the `except`
clauses and the chosen error response is serialized. -/
def lambda_handler (event : PathParams) (environ : List (String × String))
    (catdb : String → DbOutcome (Option CategoryRecord))
    (itemdb : String → Int → DbOutcome (Option PyVal))
    (oracle : Int) : Except PyErr ResponseData :=
  let tryBlock : Except PyErr ResponseData := do
    let body ← ApiPathParamater.from_event event
    let env ← EnvParam.from_env environ
    let resp ← service body env catdb itemdb oracle
    resp.data
  match tryBlock with
  | .ok d => .ok d
  | .error e => (handle_errors e).data

end Omikuji

namespace ListCategory

/-! Embedding of `src/app/list_category/lambda_function.py`. -/

/-- Source `EnvParam` (lines 30-31): this module declares only the category
table name; `ITEM_TABLE_NAME` is not among its fields. -/
structure EnvParam where
  CATEGORY_TABLE_NAME : String
  deriving Repr, DecidableEq

/-- Source `EnvParam.from_env` (lines 33-41). -/
def EnvParam.from_env (environ : List (String × String)) : Except PyErr EnvParam :=
  match environ.lookup "CATEGORY_TABLE_NAME" with
  | some c => .ok ⟨c⟩
  | none => .error (.serverError "Required environment variables are not set.")

/-- Source `scan_items` (lines 44-63): paginated scan projected through `query`;
on a `botocore` client error, `InternalServerError` raises `ServerError`,
`ResourceNotFoundException` returns `[]`, anything else raises
`ClientError`. -/
def scan_items (db_name query : String) (outcome : DbOutcome (List String)) :
    Except PyErr (List String) :=
  match outcome with
  | .success items => .ok items
  | .failure code msg =>
      if code = "InternalServerError" then .error (.serverError msg)
      else if code = "ResourceNotFoundException" then .ok []
      else .error (.clientError msg)

/-- Source `Response` (lines 66-68): `message` is a string or a list of strings. -/
structure Response where
  status_code : Int
  message : PyVal
  deriving Repr

/-- Source `Response.data` (lines 70-86): `json.dumps` without a `default` hook. -/
def Response.data (resp : Response) : Except PyErr ResponseData :=
  match dumps_val false (.dict [("message", resp.message)]) with
  | .ok j => .ok ⟨resp.status_code, cors_headers, j, false⟩
  | .error _ => .error .typeError

/-- Source `service` (lines 89-101): scan the category table and return the
projected names with status 200. -/
def service (env : EnvParam) (scandb : String → DbOutcome (List String)) :
    Except PyErr Response := do
  let response_items ←
    scan_items env.CATEGORY_TABLE_NAME "Items[].category.S"
      (scandb env.CATEGORY_TABLE_NAME)
  return ⟨200, .list (response_items.map .str)⟩

/-- The `except` clauses of `lambda_handler` (lines 113-130). -/
def handle_errors (e : PyErr) : Response :=
  match e with
  | .serverError _ =>
      ⟨500, .str "internal server error. Please access again after some time."⟩
  | .clientError msg => ⟨400, .str ("client error. " ++ msg)⟩
  | _ => ⟨500, .str "internal server error. Please contact the operator."⟩

/-- Source `lambda_handler` (lines 107-130). -/
def lambda_handler (environ : List (String × String))
    (scandb : String → DbOutcome (List String)) : Except PyErr ResponseData :=
  let tryBlock : Except PyErr ResponseData := do
    let env ← EnvParam.from_env environ
    let resp ← service env scandb
    resp.data
  match tryBlock with
  | .ok d => .ok d
  | .error e => (handle_errors e).data

end ListCategory

namespace DeleteCategory

/-! Embedding of `src/app/delete_category/lambda_function.py`. -/

/-- A DynamoDB key as built by this module: a Python dict from attribute
names to values. -/
def DKey : Type := List (String × PyVal)

/-- One mutation issued to the store: a delete of `key` on `table`. -/
structure Mutation where
  table : String
  key : DKey

/-- Source `EnvParam` (lines 31-33): both table names are required. -/
structure EnvParam where
  CATEGORY_TABLE_NAME : String
  ITEM_TABLE_NAME : String
  deriving Repr, DecidableEq

/-- Source `EnvParam.from_env` (lines 35-43). -/
def EnvParam.from_env (environ : List (String × String)) : Except PyErr EnvParam :=
  match environ.lookup "CATEGORY_TABLE_NAME", environ.lookup "ITEM_TABLE_NAME" with
  | some c, some i => .ok ⟨c, i⟩
  | _, _ => .error (.serverError "Required environment variables are not set.")

/-- Shape of the inbound event's `body`: the key may be absent from the
event, or present with a raw string whose `json.loads` result is either
not a JSON object (`none`) or an object with the given fields. -/
inductive BodyEvent where
  | absentBody
  | rawBody (parsed : Option (List (String × PyVal)))

/-- Source `ApiBody` (lines 46-48).  Only the presence of the two keys is
checked by the constructor call; values pass through untyped. -/
structure ApiBody where
  category : PyVal
  items : PyVal

/-- Source `ApiBody.from_event` (lines 50-56): `json.loads(event["body"])`, then
field extraction; any failure inside the `try` raises
`ClientError(event["body"], "Invalid parameter.")`.  When the event has
no `body` key at all, `event["body"]` raises `KeyError` both inside the
`try` and again inside the `except` block, so `KeyError` propagates. -/
def ApiBody.from_event : BodyEvent → Except PyErr ApiBody
  | .absentBody => .error .keyError
  | .rawBody none => .error (.clientError "Invalid parameter.")
  | .rawBody (some fields) =>
      match fields.lookup "category", fields.lookup "items" with
      | some c, some its => .ok ⟨c, its⟩
      | _, _ => .error (.clientError "Invalid parameter.")

/-- Python `str()` as used in the f-string `f"category is empty:
{body.category}"`; only string-valued categories reach the claims. -/
def pyStr : PyVal → String
  | .str s => s
  | _ => ""

/-- The per-key loop of `delete_items` (lines 68-81): keys are deleted in
order; the first `botocore` client error aborts the remainder and is
classified: `InternalServerError` raises `ServerError`, anything else
raises `ClientError` (this helper has no `ResourceNotFoundException`
branch).  Also returns the mutations actually issued. -/
def run_batch (table_name : String) (db : DKey → DbOutcome Unit) :
    List DKey → Except PyErr Unit × List Mutation
  | [] => (.ok (), [])
  | key :: rest =>
      match db key with
      | .success _ =>
          let (res, tr) := run_batch table_name db rest
          (res, ⟨table_name, key⟩ :: tr)
      | .failure code msg =>
          if code = "InternalServerError" then (.error (.serverError msg), [])
          else (.error (.clientError msg), [])

/-- Source `delete_items` (lines 59-81): returns immediately on an empty key
list; otherwise runs the batch. -/
def delete_items (table_name : String) (keys : List DKey)
    (db : DKey → DbOutcome Unit) : Except PyErr Unit × List Mutation :=
  if keys.length = 0 then (.ok (), [])
  else run_batch table_name db keys

/-- Source `query_items` (lines 84-112): paginated query for all `item_id`
projections under a partition key; `InternalServerError` raises
`ServerError`, `ResourceNotFoundException` returns `[]`, anything else
raises `ClientError`. -/
def query_items (db_name key : String) (value : PyVal) (query : String)
    (outcome : DbOutcome (List String)) : Except PyErr (List String) :=
  match outcome with
  | .success items => .ok items
  | .failure code msg =>
      if code = "InternalServerError" then .error (.serverError msg)
      else if code = "ResourceNotFoundException" then .ok []
      else .error (.clientError msg)

/-- Source `get_item` (lines 115-135): identical classification to the omikuji
module's helper. -/
def get_item {α : Type} (table_name : String) (outcome : DbOutcome (Option α)) :
    Except PyErr (Option α) :=
  match outcome with
  | .success item => .ok item
  | .failure code msg =>
      if code = "InternalServerError" then .error (.serverError msg)
      else if code = "ResourceNotFoundException" then .ok none
      else .error (.clientError msg)

/-- Source `Response` (lines 138-140): `message` is always a string here. -/
structure Response where
  status_code : Int
  message : String
  deriving Repr, DecidableEq

/-- Source `Response.data` (lines 142-158): `json.dumps` of a one-string-field
object never fails, so `data` is total. -/
def Response.data (resp : Response) : ResponseData :=
  ⟨resp.status_code, cors_headers, .obj [("message", .str resp.message)], false⟩

/-- Source `service` (lines 161-197): look up the category record (absent means
`ClientError`), query all item ids under the category, bulk-delete the
item records, then delete the category record; answer
`Response(200, "success")`.  Also returns the store mutations issued, in
order. -/
def service (body : ApiBody) (env : EnvParam)
    (catdb : PyVal → DbOutcome (Option PyVal))
    (querydb : DbOutcome (List String))
    (itemdeldb : DKey → DbOutcome Unit)
    (catdeldb : DKey → DbOutcome Unit) :
    Except PyErr Response × List Mutation :=
  match get_item env.CATEGORY_TABLE_NAME (catdb body.category) with
  | .error e => (.error e, [])
  | .ok none =>
      (.error (.clientError ("category is empty: " ++ pyStr body.category)), [])
  | .ok (some _) =>
      match query_items env.ITEM_TABLE_NAME "category" body.category
          "Items[].item_id.S" querydb with
      | .error e => (.error e, [])
      | .ok response_items =>
          let (res1, tr1) := delete_items env.ITEM_TABLE_NAME
            (response_items.map fun x =>
              [("category", body.category), ("item_id", PyVal.str x)])
            itemdeldb
          match res1 with
          | .error e => (.error e, tr1)
          | .ok _ =>
              let (res2, tr2) := delete_items env.CATEGORY_TABLE_NAME
                [[("category", body.category)]] catdeldb
              match res2 with
              | .error e => (.error e, tr1 ++ tr2)
              | .ok _ => (.ok ⟨200, "success"⟩, tr1 ++ tr2)

/-- The `except` clauses of `lambda_handler` (lines 211-228). -/
def handle_errors (e : PyErr) : Response :=
  match e with
  | .serverError _ =>
      ⟨500, "internal server error. Please access again after some time."⟩
  | .clientError msg => ⟨400, "client error. " ++ msg⟩
  | _ => ⟨500, "internal server error. Please contact the operator."⟩

/-- Source `lambda_handler` (lines 203-228): parse the body, then the
environment, run the service, serialize; exceptions map through the
`except` clauses.  Also returns the store mutations issued. -/
def lambda_handler (event : BodyEvent) (environ : List (String × String))
    (catdb : PyVal → DbOutcome (Option PyVal))
    (querydb : DbOutcome (List String))
    (itemdeldb : DKey → DbOutcome Unit)
    (catdeldb : DKey → DbOutcome Unit) : ResponseData × List Mutation :=
  match ApiBody.from_event event with
  | .error e => ((handle_errors e).data, [])
  | .ok body =>
      match EnvParam.from_env environ with
      | .error e => ((handle_errors e).data, [])
      | .ok env =>
          let (res, tr) := service body env catdb querydb itemdeldb catdeldb
          match res with
          | .ok resp => (resp.data, tr)
          | .error e => ((handle_errors e).data, tr)

end DeleteCategory

/-! ### Helper lemmas -/

mutual

/-- A serializable value (no unserializable leaf) dumps to its `jencode`
image; an unserializable one raises `TypeError`. -/
theorem dumps_val_spec (v : PyVal) :
    dumps_val true v =
      if hasUnserializable v then .error () else .ok (jencode v) := by
  cases v with
  | str s => rfl
  | int n => rfl
  | decimal d => rfl
  | bool b => rfl
  | null => rfl
  | unserializable => rfl
  | list xs =>
      rw [show dumps_val true (.list xs) = (dumps_list true xs).map .arr from rfl,
        dumps_list_spec xs]
      by_cases h : hasUnserializableList xs <;>
        simp [h, hasUnserializable, jencode, Except.map]
  | dict fs =>
      rw [show dumps_val true (.dict fs) = (dumps_fields true fs).map .obj from rfl,
        dumps_fields_spec fs]
      by_cases h : hasUnserializableFields fs <;>
        simp [h, hasUnserializable, jencode, Except.map]

theorem dumps_list_spec (xs : List PyVal) :
    dumps_list true xs =
      if hasUnserializableList xs then .error () else .ok (jencodeList xs) := by
  cases xs with
  | nil => rfl
  | cons x xs =>
      rw [show dumps_list true (x :: xs)
          = (dumps_val true x).bind (fun j =>
              (dumps_list true xs).bind (fun js => .ok (j :: js))) from rfl,
        dumps_val_spec x, dumps_list_spec xs]
      by_cases h1 : hasUnserializable x <;> by_cases h2 : hasUnserializableList xs <;>
        simp [h1, h2, hasUnserializableList, jencodeList, Except.bind]

theorem dumps_fields_spec (fs : List (String × PyVal)) :
    dumps_fields true fs =
      if hasUnserializableFields fs then .error () else .ok (jencodeFields fs) := by
  cases fs with
  | nil => rfl
  | cons kv fs =>
      obtain ⟨k, v⟩ := kv
      rw [show dumps_fields true ((k, v) :: fs)
          = (dumps_val true v).bind (fun j =>
              (dumps_fields true fs).bind (fun js => .ok ((k, j) :: js))) from rfl,
        dumps_val_spec v, dumps_fields_spec fs]
      by_cases h1 : hasUnserializable v <;> by_cases h2 : hasUnserializableFields fs <;>
        simp [h1, h2, hasUnserializableFields, jencodeFields, Except.bind]

end

/-- A batch over a store in which every delete succeeds deletes every
key, in order. -/
theorem run_batch_success (tbl : String) (keys : List DeleteCategory.DKey) :
    DeleteCategory.run_batch tbl (fun _ => .success ()) keys
      = (.ok (), keys.map fun k => ⟨tbl, k⟩) := by
  induction keys with
  | nil => rfl
  | cons k rest ih =>
      simp [DeleteCategory.run_batch, ih]

/-- Source `delete_items` over an all-success store deletes every key in
order (and is a no-op on the empty list). -/
theorem delete_items_success (tbl : String) (keys : List DeleteCategory.DKey) :
    DeleteCategory.delete_items tbl keys (fun _ => .success ())
      = (.ok (), keys.map fun k => ⟨tbl, k⟩) := by
  cases keys with
  | nil => rfl
  | cons k rest => simp [DeleteCategory.delete_items, run_batch_success]

/-! ### Claims -/

/-- C1: for every store failure observed by the read helpers `get_item`
(omikuji), `query_items` (delete_category) and `scan_items`
(list_category): a `ResourceNotFoundException` failure code is not an
error (`get_item` returns `None`, the other two return an empty list),
an `InternalServerError` failure code raises `ServerError`, and every
other failure code raises `ClientError`. -/
theorem C1_read_helper_classification (tbl q msg code : String) (value : PyVal)
    (h1 : code ≠ "InternalServerError") (h2 : code ≠ "ResourceNotFoundException") :
    (Omikuji.get_item (α := PyVal) tbl (.failure "ResourceNotFoundException" msg)
        = .ok none
      ∧ DeleteCategory.query_items tbl "category" value q
          (.failure "ResourceNotFoundException" msg) = .ok []
      ∧ ListCategory.scan_items tbl q (.failure "ResourceNotFoundException" msg)
          = .ok [])
    ∧ (Omikuji.get_item (α := PyVal) tbl (.failure "InternalServerError" msg)
        = .error (.serverError msg)
      ∧ DeleteCategory.query_items tbl "category" value q
          (.failure "InternalServerError" msg) = .error (.serverError msg)
      ∧ ListCategory.scan_items tbl q (.failure "InternalServerError" msg)
          = .error (.serverError msg))
    ∧ (Omikuji.get_item (α := PyVal) tbl (.failure code msg)
        = .error (.clientError msg)
      ∧ DeleteCategory.query_items tbl "category" value q (.failure code msg)
          = .error (.clientError msg)
      ∧ ListCategory.scan_items tbl q (.failure code msg)
          = .error (.clientError msg)) := by
  refine ⟨⟨rfl, rfl, rfl⟩, ⟨rfl, rfl, rfl⟩, ?_, ?_, ?_⟩ <;>
    simp [Omikuji.get_item, DeleteCategory.query_items, ListCategory.scan_items,
      h1, h2]

/-- Witness for C1 at the concrete failure code `ValidationException`. -/
theorem C1_read_helper_classification_witness :
    (("ValidationException" : String) ≠ "InternalServerError")
    ∧ (("ValidationException" : String) ≠ "ResourceNotFoundException")
    ∧ ((Omikuji.get_item (α := PyVal) "t" (.failure "ResourceNotFoundException" "m")
          = .ok none
        ∧ DeleteCategory.query_items "t" "category" (.str "c") "q"
            (.failure "ResourceNotFoundException" "m") = .ok []
        ∧ ListCategory.scan_items "t" "q" (.failure "ResourceNotFoundException" "m")
            = .ok [])
      ∧ (Omikuji.get_item (α := PyVal) "t" (.failure "InternalServerError" "m")
          = .error (.serverError "m")
        ∧ DeleteCategory.query_items "t" "category" (.str "c") "q"
            (.failure "InternalServerError" "m") = .error (.serverError "m")
        ∧ ListCategory.scan_items "t" "q" (.failure "InternalServerError" "m")
            = .error (.serverError "m"))
      ∧ (Omikuji.get_item (α := PyVal) "t" (.failure "ValidationException" "m")
          = .error (.clientError "m")
        ∧ DeleteCategory.query_items "t" "category" (.str "c") "q"
            (.failure "ValidationException" "m") = .error (.clientError "m")
        ∧ ListCategory.scan_items "t" "q" (.failure "ValidationException" "m")
            = .error (.clientError "m"))) :=
  ⟨by decide, by decide,
    C1_read_helper_classification "t" "q" "m" "ValidationException" (.str "c")
      (by decide) (by decide)⟩

/-- C2: the handler entry points map a raised `ServerError` to status 500
with a fixed try-again-later message that is independent of the error's
carried detail (so nothing from the caller's input is echoed), a raised
`ClientError` to status 400 echoing the error's carried message, and any
other uncaught exception to status 500 with a fixed contact-the-operator
message.  Stated for the `except` clauses shared verbatim by the omikuji
and delete_category entry points. -/
theorem C2_handler_error_mapping (detail msg : String) :
    (Omikuji.handle_errors (.serverError detail)
        = ⟨500, .str "internal server error. Please access again after some time."⟩
      ∧ DeleteCategory.handle_errors (.serverError detail)
        = ⟨500, "internal server error. Please access again after some time."⟩)
    ∧ (Omikuji.handle_errors (.clientError msg)
        = ⟨400, .str ("client error. " ++ msg)⟩
      ∧ DeleteCategory.handle_errors (.clientError msg)
        = ⟨400, "client error. " ++ msg⟩)
    ∧ (Omikuji.handle_errors .keyError
        = ⟨500, .str "internal server error. Please contact the operator."⟩
      ∧ Omikuji.handle_errors .nameError
        = ⟨500, .str "internal server error. Please contact the operator."⟩
      ∧ Omikuji.handle_errors .typeError
        = ⟨500, .str "internal server error. Please contact the operator."⟩
      ∧ Omikuji.handle_errors .valueError
        = ⟨500, .str "internal server error. Please contact the operator."⟩
      ∧ DeleteCategory.handle_errors .keyError
        = ⟨500, "internal server error. Please contact the operator."⟩
      ∧ DeleteCategory.handle_errors .nameError
        = ⟨500, "internal server error. Please contact the operator."⟩
      ∧ DeleteCategory.handle_errors .typeError
        = ⟨500, "internal server error. Please contact the operator."⟩
      ∧ DeleteCategory.handle_errors .valueError
        = ⟨500, "internal server error. Please contact the operator."⟩) :=
  ⟨⟨rfl, rfl⟩, ⟨rfl, rfl⟩, rfl, rfl, rfl, rfl, rfl, rfl, rfl, rfl⟩

/-- C3: for every draw request, if the category record is absent the
service raises `ClientError`; if it is present with `num_item >= 1`, the
drawn id is `random.randint(0, num_item - 1)` - the PRNG draw `oracle`,
which under the `randint` contract lies in `[0, num_item)` - the item is
fetched at key `(category, id)` (the last clause shows the fetch hits
exactly that key), absence of that item raises `ServerError`, and
otherwise the fetched payload is returned verbatim with status 200. -/
theorem C3_draw_service (body : Omikuji.ApiPathParamater) (env : Omikuji.EnvParam)
    (cat : Omikuji.CategoryRecord) (oracle : Int) (payload : PyVal)
    (hn : 1 ≤ cat.num_item) (hlo : 0 ≤ oracle) (hhi : oracle ≤ cat.num_item - 1) :
    (Omikuji.service body env (fun _ => .success none) (fun _ _ => .success none)
        oracle = .error (.clientError ("category is empty: " ++ body.category)))
    ∧ Omikuji.randint 0 (cat.num_item - 1) oracle = .ok oracle
    ∧ (0 ≤ oracle ∧ oracle < cat.num_item)
    ∧ (Omikuji.service body env (fun _ => .success (some cat))
        (fun _ _ => .success none) oracle = .error (.serverError "item dose not exist"))
    ∧ (Omikuji.service body env (fun _ => .success (some cat))
        (fun c i => if c = body.category ∧ i = oracle
                    then .success (some payload) else .success none) oracle
        = .ok ⟨200, payload⟩) := by
  have hne : ¬(cat.num_item - 1 < 0) := by omega
  have hne2 : ¬(cat.num_item < 1) := by omega
  refine ⟨rfl, ?_, ⟨hlo, by omega⟩, ?_, ?_⟩
  · unfold Omikuji.randint
    rw [if_neg hne]
  · simp [Omikuji.service, Omikuji.get_item, Omikuji.randint, Except.bind, bind,
      Bind.bind, Except.instMonad, Except.pure, hne2]
  · simp [Omikuji.service, Omikuji.get_item, Omikuji.randint, Except.bind, bind,
      Bind.bind, Except.instMonad, Except.pure, hne2]

/-- Witness for C3 at category "c", `num_item = 2`, draw 1, payload
"prize". -/
theorem C3_draw_service_witness :
    ((1 : Int) ≤ (Omikuji.CategoryRecord.mk 2).num_item)
    ∧ ((0 : Int) ≤ 1)
    ∧ ((1 : Int) ≤ (Omikuji.CategoryRecord.mk 2).num_item - 1)
    ∧ ((Omikuji.service ⟨"c"⟩ ⟨"ct", "it"⟩ (fun _ => .success none)
          (fun _ _ => .success none) 1
          = .error (.clientError ("category is empty: " ++
              (Omikuji.ApiPathParamater.mk "c").category)))
      ∧ Omikuji.randint 0 ((Omikuji.CategoryRecord.mk 2).num_item - 1) 1 = .ok 1
      ∧ ((0 : Int) ≤ 1 ∧ (1 : Int) < (Omikuji.CategoryRecord.mk 2).num_item)
      ∧ (Omikuji.service ⟨"c"⟩ ⟨"ct", "it"⟩
          (fun _ => .success (some ⟨2⟩)) (fun _ _ => .success none) 1
          = .error (.serverError "item dose not exist"))
      ∧ (Omikuji.service ⟨"c"⟩ ⟨"ct", "it"⟩ (fun _ => .success (some ⟨2⟩))
          (fun c i => if c = (Omikuji.ApiPathParamater.mk "c").category ∧ i = 1
                      then .success (some (.str "prize")) else .success none) 1
          = .ok ⟨200, .str "prize"⟩)) :=
  ⟨by decide, by decide, by decide,
    C3_draw_service ⟨"c"⟩ ⟨"ct", "it"⟩ ⟨2⟩ 1 (.str "prize")
      (by decide) (by decide) (by decide)⟩

/-- C4: on an existing category, the delete service queries all item ids
under the category, bulk-deletes exactly those item records from the
item table, and then deletes the category record from the category
table, in that order (the mutation trace lists every item delete before
the category delete); with zero items the item-deletion step issues no
mutation, and `delete_items` on an empty key list returns immediately. -/
theorem C4_delete_service_order (c : String) (its : List PyVal)
    (env : DeleteCategory.EnvParam) (catrec : PyVal) (ids : List String)
    (tbl : String) (db0 : DeleteCategory.DKey → DbOutcome Unit) :
    DeleteCategory.service ⟨.str c, .list its⟩ env (fun _ => .success (some catrec))
        (.success ids) (fun _ => .success ()) (fun _ => .success ())
      = (.ok ⟨200, "success"⟩,
          (ids.map fun x =>
            ⟨env.ITEM_TABLE_NAME, [("category", .str c), ("item_id", .str x)]⟩)
          ++ [⟨env.CATEGORY_TABLE_NAME, [("category", .str c)]⟩])
    ∧ DeleteCategory.delete_items tbl [] db0 = (.ok (), []) := by
  constructor
  · simp [DeleteCategory.service, DeleteCategory.get_item,
      DeleteCategory.query_items, delete_items_success, List.map_map,
      Function.comp]
  · rfl

/-- C5: a delete-category request naming a category whose record is
absent returns status 400 with the `ClientError` message echoed, and the
mutation trace is empty - no delete is issued against either table,
whatever the query and delete layers would have answered. -/
theorem C5_delete_absent_category (c : String) (its : List PyVal)
    (cattb itemtb : String) (querydb : DbOutcome (List String))
    (itemdeldb catdeldb : DeleteCategory.DKey → DbOutcome Unit) :
    DeleteCategory.lambda_handler
        (.rawBody (some [("category", .str c), ("items", .list its)]))
        [("CATEGORY_TABLE_NAME", cattb), ("ITEM_TABLE_NAME", itemtb)]
        (fun _ => .success none) querydb itemdeldb catdeldb
      = (⟨400, cors_headers,
            .obj [("message",
              .str ("client error. " ++ ("category is empty: " ++ c)))],
            false⟩, []) := by
  rfl

/-- C6 counterexample: `delete_items` does not classify failures the
same way as the single-item helpers.  On a `ResourceNotFoundException`
the single-item helper `get_item` answers success-with-absence, but
`delete_items` raises `ClientError` - an error - because its `except`
block has no resource-not-found branch. -/
theorem C6_counterexample :
    DeleteCategory.delete_items "items"
        [[("category", PyVal.str "c"), ("item_id", PyVal.str "0")]]
        (fun _ => .failure "ResourceNotFoundException" "Requested resource not found")
      = (.error (.clientError "Requested resource not found"), [])
    ∧ DeleteCategory.get_item (α := PyVal) "items"
        (.failure "ResourceNotFoundException" "Requested resource not found")
      = .ok none :=
  ⟨rfl, rfl⟩

/-- C6 (amended): a failure raised while `delete_items` processes its
batch is classified with only two branches: an `InternalServerError`
failure code raises `ServerError` and every other failure code -
resource-not-found included - raises `ClientError`; the failure aborts
the remaining batch (keys before the failing one are deleted, the
failing key and everything after it are not), and nothing beyond the
raised error reports partial success. -/
theorem C6_batch_failure_classification (tbl msg code : String)
    (k : DeleteCategory.DKey) (rest : List DeleteCategory.DKey)
    (h : code ≠ "InternalServerError") :
    DeleteCategory.delete_items tbl (k :: rest)
        (fun _ => .failure "InternalServerError" msg)
      = (.error (.serverError msg), [])
    ∧ DeleteCategory.delete_items tbl (k :: rest) (fun _ => .failure code msg)
      = (.error (.clientError msg), [])
    ∧ DeleteCategory.delete_items tbl
        ([("id", PyVal.int 0)] :: [("id", PyVal.str "1")] :: rest)
        (fun key => match key with
          | [(_, PyVal.int _)] => .success ()
          | _ => .failure code msg)
      = (.error (.clientError msg), [⟨tbl, [("id", PyVal.int 0)]⟩]) := by
  refine ⟨?_, ?_, ?_⟩ <;>
    simp [DeleteCategory.delete_items, DeleteCategory.run_batch, h]

/-- Witness for C6 at the failure code `ResourceNotFoundException`. -/
theorem C6_batch_failure_classification_witness :
    (("ResourceNotFoundException" : String) ≠ "InternalServerError")
    ∧ (DeleteCategory.delete_items "t" ([[("category", PyVal.str "c")]])
          (fun _ => .failure "InternalServerError" "m")
        = (.error (.serverError "m"), [])
      ∧ DeleteCategory.delete_items "t" ([[("category", PyVal.str "c")]])
          (fun _ => .failure "ResourceNotFoundException" "m")
        = (.error (.clientError "m"), [])
      ∧ DeleteCategory.delete_items "t"
          ([("id", PyVal.int 0)] :: [("id", PyVal.str "1")] :: [])
          (fun key => match key with
            | [(_, PyVal.int _)] => .success ()
            | _ => .failure "ResourceNotFoundException" "m")
        = (.error (.clientError "m"), [⟨"t", [("id", PyVal.int 0)]⟩])) :=
  ⟨by decide,
    C6_batch_failure_classification "t" "m" "ResourceNotFoundException"
      [("category", PyVal.str "c")] [] (by decide)⟩

/-- C7 (code bug): a draw event with no `pathParameters` entry at all
does NOT produce the `ClientError`/400 the parser intends: the `except`
block evaluates `json.dumps(paramater)` with `paramater` unbound, so an
`UnboundLocalError` (`NameError`) escapes and the handler returns 500
with the contact-the-operator message.  When the `pathParameters` entry
is present but lacks the `category` segment (or is null), the parser
does raise `ClientError` and the handler returns 400. -/
theorem C7_missing_path_parameter :
    Omikuji.ApiPathParamater.from_event .absentKey = .error .nameError
    ∧ Omikuji.lambda_handler .absentKey
        [("CATEGORY_TABLE_NAME", "cat"), ("ITEM_TABLE_NAME", "item")]
        (fun _ => .success none) (fun _ _ => .success none) 0
      = .ok ⟨500, cors_headers,
          .obj [("message",
            .str "internal server error. Please contact the operator.")], false⟩
    ∧ Omikuji.lambda_handler (.dict [("foo", "bar")])
        [("CATEGORY_TABLE_NAME", "cat"), ("ITEM_TABLE_NAME", "item")]
        (fun _ => .success none) (fun _ _ => .success none) 0
      = .ok ⟨400, cors_headers,
          .obj [("message", .str "client error. Invalid parameter.")], false⟩
    ∧ Omikuji.lambda_handler .nullValue
        [("CATEGORY_TABLE_NAME", "cat"), ("ITEM_TABLE_NAME", "item")]
        (fun _ => .success none) (fun _ _ => .success none) 0
      = .ok ⟨400, cors_headers,
          .obj [("message", .str "client error. Invalid parameter.")], false⟩ :=
  ⟨rfl, rfl, rfl, rfl⟩

/-- C8 counterexample: with `CATEGORY_TABLE_NAME` set and
`ITEM_TABLE_NAME` absent from the environment, the list_category handler
does not raise `ServerError` and does not return 500 - its `EnvParam`
declares only `CATEGORY_TABLE_NAME`, so parsing succeeds and the scan
proceeds to a 200 response. -/
theorem C8_counterexample :
    ListCategory.EnvParam.from_env [("CATEGORY_TABLE_NAME", "cat")] = .ok ⟨"cat"⟩
    ∧ ListCategory.lambda_handler [("CATEGORY_TABLE_NAME", "cat")]
        (fun _ => .success [])
      = .ok ⟨200, cors_headers, .obj [("message", .arr [])], false⟩ :=
  ⟨rfl, rfl⟩

/-- C8 (amended): each handler raises `ServerError` when an environment
variable among those its own `EnvParam` declares is absent - omikuji and
delete_category require both `CATEGORY_TABLE_NAME` and
`ITEM_TABLE_NAME`, list_category requires only `CATEGORY_TABLE_NAME` -
and, provided the inbound event itself parses, returns status 500 with
the try-again message before any store access: the result is the same
whatever the store layers would have answered, and the delete handler's
mutation trace is empty. -/
theorem C8_env_missing (environ1 environ2 : List (String × String))
    (c : String) (cv iv : PyVal)
    (catdb : String → DbOutcome (Option Omikuji.CategoryRecord))
    (itemdb : String → Int → DbOutcome (Option PyVal)) (oracle : Int)
    (dcatdb : PyVal → DbOutcome (Option PyVal)) (querydb : DbOutcome (List String))
    (itemdeldb catdeldb : DeleteCategory.DKey → DbOutcome Unit)
    (scandb : String → DbOutcome (List String))
    (h1 : environ1.lookup "CATEGORY_TABLE_NAME" = none)
    (h2 : environ2.lookup "ITEM_TABLE_NAME" = none) :
    Omikuji.lambda_handler (.dict [("category", c)]) environ1 catdb itemdb oracle
      = .ok ⟨500, cors_headers,
          .obj [("message",
            .str "internal server error. Please access again after some time.")],
          false⟩
    ∧ Omikuji.lambda_handler (.dict [("category", c)]) environ2 catdb itemdb oracle
      = .ok ⟨500, cors_headers,
          .obj [("message",
            .str "internal server error. Please access again after some time.")],
          false⟩
    ∧ DeleteCategory.lambda_handler
        (.rawBody (some [("category", cv), ("items", iv)])) environ1
        dcatdb querydb itemdeldb catdeldb
      = (⟨500, cors_headers,
          .obj [("message",
            .str "internal server error. Please access again after some time.")],
          false⟩, [])
    ∧ DeleteCategory.lambda_handler
        (.rawBody (some [("category", cv), ("items", iv)])) environ2
        dcatdb querydb itemdeldb catdeldb
      = (⟨500, cors_headers,
          .obj [("message",
            .str "internal server error. Please access again after some time.")],
          false⟩, [])
    ∧ ListCategory.lambda_handler environ1 scandb
      = .ok ⟨500, cors_headers,
          .obj [("message",
            .str "internal server error. Please access again after some time.")],
          false⟩ := by
  refine ⟨?_, ?_, ?_, ?_, ?_⟩
  · simp +decide [Omikuji.lambda_handler, Omikuji.ApiPathParamater.from_event,
      Omikuji.EnvParam.from_env, h1, Except.bind, bind, Bind.bind,
      Except.instMonad, Omikuji.handle_errors, Omikuji.Response.data,
      dumps_val, dumps_fields, Except.map, Except.pure, pure, Pure.pure,
      List.lookup]
  · rcases hc : environ2.lookup "CATEGORY_TABLE_NAME" with _ | c2 <;>
      simp +decide [Omikuji.lambda_handler, Omikuji.ApiPathParamater.from_event,
        Omikuji.EnvParam.from_env, hc, h2, Except.bind, bind, Bind.bind,
        Except.instMonad, Omikuji.handle_errors, Omikuji.Response.data,
        dumps_val, dumps_fields, Except.map, Except.pure, pure, Pure.pure,
        List.lookup]
  · simp +decide [DeleteCategory.lambda_handler, DeleteCategory.ApiBody.from_event,
      DeleteCategory.EnvParam.from_env, h1, DeleteCategory.handle_errors,
      DeleteCategory.Response.data, List.lookup]
  · rcases hc : environ2.lookup "CATEGORY_TABLE_NAME" with _ | c2 <;>
      simp +decide [DeleteCategory.lambda_handler, DeleteCategory.ApiBody.from_event,
        DeleteCategory.EnvParam.from_env, hc, h2, DeleteCategory.handle_errors,
        DeleteCategory.Response.data, List.lookup]
  · simp +decide [ListCategory.lambda_handler, ListCategory.EnvParam.from_env, h1,
      Except.bind, bind, Bind.bind, Except.instMonad,
      ListCategory.handle_errors, ListCategory.Response.data,
      dumps_val, dumps_fields, Except.map, Except.pure, pure, Pure.pure]

/-- Witness for C8: an empty environment and an environment holding only
`CATEGORY_TABLE_NAME`. -/
theorem C8_env_missing_witness :
    (List.lookup "CATEGORY_TABLE_NAME" ([] : List (String × String)) = none)
    ∧ (List.lookup "ITEM_TABLE_NAME" [("CATEGORY_TABLE_NAME", "cat")] = none)
    ∧ (Omikuji.lambda_handler (.dict [("category", "c")]) []
          (fun _ => .success none) (fun _ _ => .success none) 0
        = .ok ⟨500, cors_headers,
            .obj [("message",
              .str "internal server error. Please access again after some time.")],
            false⟩
      ∧ Omikuji.lambda_handler (.dict [("category", "c")])
          [("CATEGORY_TABLE_NAME", "cat")]
          (fun _ => .success none) (fun _ _ => .success none) 0
        = .ok ⟨500, cors_headers,
            .obj [("message",
              .str "internal server error. Please access again after some time.")],
            false⟩
      ∧ DeleteCategory.lambda_handler
          (.rawBody (some [("category", .str "c"), ("items", .list [])])) []
          (fun _ => .success none) (.success []) (fun _ => .success ())
          (fun _ => .success ())
        = (⟨500, cors_headers,
            .obj [("message",
              .str "internal server error. Please access again after some time.")],
            false⟩, [])
      ∧ DeleteCategory.lambda_handler
          (.rawBody (some [("category", .str "c"), ("items", .list [])]))
          [("CATEGORY_TABLE_NAME", "cat")]
          (fun _ => .success none) (.success []) (fun _ => .success ())
          (fun _ => .success ())
        = (⟨500, cors_headers,
            .obj [("message",
              .str "internal server error. Please access again after some time.")],
            false⟩, [])
      ∧ ListCategory.lambda_handler [] (fun _ => .success [])
        = .ok ⟨500, cors_headers,
            .obj [("message",
              .str "internal server error. Please access again after some time.")],
            false⟩) :=
  ⟨rfl, rfl,
    C8_env_missing [] [("CATEGORY_TABLE_NAME", "cat")] "c" (.str "c") (.list [])
      (fun _ => .success none) (fun _ _ => .success none) 0
      (fun _ => .success none) (.success []) (fun _ => .success ())
      (fun _ => .success ()) (fun _ => .success []) rfl rfl⟩

/-- C9: serializing a successful draw response coerces every `Decimal`
in the item payload to a plain integer via `int()` before JSON encoding
(`jencode` maps every decimal leaf to the integer it denotes, at any
nesting depth), and a payload containing any other non-JSON-serializable
value raises `TypeError` instead of being encoded. -/
theorem C9_decimal_serialization (payload : PyVal) (d : Int) :
    decimal_default_proc (.decimal d) = .ok (.int d)
    ∧ dumps_val true (.decimal d) = .ok (.num d)
    ∧ dumps_val true .unserializable = .error ()
    ∧ jencode (.decimal d) = .num d
    ∧ (dumps_val true payload
        = if hasUnserializable payload then .error () else .ok (jencode payload))
    ∧ (Omikuji.Response.data ⟨200, payload⟩
        = if hasUnserializable payload then .error .typeError
          else .ok ⟨200, cors_headers, .obj [("message", jencode payload)], false⟩) := by
  refine ⟨rfl, rfl, rfl, rfl, dumps_val_spec payload, ?_⟩
  by_cases h : hasUnserializable payload <;>
    simp [Omikuji.Response.data, dumps_val, dumps_fields,
      dumps_val_spec payload, h, Except.bind, bind, Bind.bind, Except.instMonad,
      Except.map, Except.pure, pure, Pure.pure]

/-- C10: a draw on an existing category whose `num_item` is 0 makes
`random.randint(0, -1)` raise `ValueError` - neither `ClientError` nor
`ServerError` - so the handler returns status 500 with the generic
contact-the-operator message (not the try-again message and not 400). -/
theorem C10_zero_item_category (c tcat titem : String)
    (itemdb : String → Int → DbOutcome (Option PyVal)) (oracle : Int) :
    Omikuji.randint 0 ((0 : Int) - 1) oracle = .error .valueError
    ∧ Omikuji.lambda_handler (.dict [("category", c)])
        [("CATEGORY_TABLE_NAME", tcat), ("ITEM_TABLE_NAME", titem)]
        (fun _ => .success (some ⟨0⟩)) itemdb oracle
      = .ok ⟨500, cors_headers,
          .obj [("message",
            .str "internal server error. Please contact the operator.")], false⟩ :=
  ⟨rfl, rfl⟩
